import Mathlib

/-!
A verification development for the Supervisor configuration module
(`components/sup/src/config.rs`): the typed address model
(`GossipListenAddr`), peer-list normalization (`Config::set_gossip_peer`),
command parsing (`Command::from_str`), the configuration aggregate
(`Config` with its builder setters and accessors), and the write-once
global cache (`gcache` / `gconfig`).

Machine strings are Lean `String`s, ports and address components are `Nat`s
with their range enforced by the parsers, and fallible operations return
`Except` / `Option`.  The raw-pointer global cache is modelled as an
explicit state of type `Option Config` (`none` standing for the initial
null pointer), with publishes folded over that state.
-/

namespace Sup

/-- Equality of `Except` results is decidable when it is on both sides. -/
instance instDecEqExcept {ε α : Type} [DecidableEq ε] [DecidableEq α] :
    DecidableEq (Except ε α) := fun x y =>
  match x, y with
  | .ok a, .ok b => if h : a = b then .isTrue (by rw [h]) else .isFalse (by simp [h])
  | .error a, .error b => if h : a = b then .isTrue (by rw [h]) else .isFalse (by simp [h])
  | .ok _, .error _ => .isFalse (by simp)
  | .error _, .ok _ => .isFalse (by simp)

/-- Error variants of the supervisor relevant to this module
(`Error::IPFailed` is the address-parse error, `Error::CommandNotImplemented`
the unknown-command error). -/
inductive SupError where
  | IPFailed
  | CommandNotImplemented
deriving DecidableEq

/-- `std::net::IpAddr`: either a V4 address (four octets) or a V6 address
(eight 16-bit groups). -/
inductive IpAddr where
  | v4 (a b c d : Nat)
  | v6 (groups : List Nat)
deriving DecidableEq

/-- `std::net::SocketAddr`: an IP address plus a port. -/
structure SocketAddr where
  ip : IpAddr
  port : Nat
deriving DecidableEq

/-- `SocketAddr::set_ip`: replace the IP component, keep the port. -/
def SocketAddr.set_ip (s : SocketAddr) (ip : IpAddr) : SocketAddr :=
  { s with ip := ip }

/-- `SocketAddr::set_port`: replace the port, keep the IP. -/
def SocketAddr.set_port (s : SocketAddr) (port : Nat) : SocketAddr :=
  { s with port := port }

/-! ## The textual address grammar of `std::net`

`GossipListenAddr::from_str` delegates to `SocketAddr::from_str` and
`IpAddr::from_str` from the Rust standard library.  The following
definitions embed that parser: numbers are greedy digit runs with a
maximal digit count, an IPv4 address is four dot-separated octets
(each at most 3 digits and at most 255), an IPv6 address is colon
separated 16-bit hex groups with at most one `::` abbreviation and an
optional embedded trailing IPv4 pair, a V4 socket address is
`ipv4:port`, a V6 socket address is `[ipv6]:port`, and a port is at
most 5 digits and at most 65535.  Every `from_str` requires the whole
input to be consumed. -/

/-- Value of a decimal digit character. -/
def digitVal10 (c : Char) : Option Nat :=
  if 48 ≤ c.toNat ∧ c.toNat ≤ 57 then some (c.toNat - 48) else none

/-- Value of a hexadecimal digit character (either case). -/
def digitVal16 (c : Char) : Option Nat :=
  if 48 ≤ c.toNat ∧ c.toNat ≤ 57 then some (c.toNat - 48)
  else if 97 ≤ c.toNat ∧ c.toNat ≤ 102 then some (c.toNat - 87)
  else if 65 ≤ c.toNat ∧ c.toNat ≤ 70 then some (c.toNat - 55)
  else none

/-- Digit value at a given radix (only 10 and 16 are used). -/
def digitVal (radix : Nat) (c : Char) : Option Nat :=
  if radix = 16 then digitVal16 c else digitVal10 c

/-- Greedily split off the longest prefix of digits of the given radix. -/
def takeDigits (radix : Nat) : List Char → List Nat × List Char
  | [] => ([], [])
  | c :: cs =>
    match digitVal radix c with
    | some d =>
      let (ds, rest) := takeDigits radix cs
      (d :: ds, rest)
    | none => ([], c :: cs)

/-- `Parser::read_number`: read a non-empty greedy digit run of at most
`maxDigits` digits and return its value. -/
def readNumber (radix maxDigits : Nat) (cs : List Char) : Option (Nat × List Char) :=
  let (ds, rest) := takeDigits radix cs
  if ds.isEmpty ∨ maxDigits < ds.length then none
  else some (ds.foldl (fun acc d => acc * radix + d) 0, rest)

/-- Consume one expected character. -/
def expectChar (c : Char) : List Char → Option (List Char)
  | x :: xs => if x = c then some xs else none
  | [] => none

/-- An IPv4 octet: a decimal number of at most 3 digits, at most 255. -/
def readOctet (cs : List Char) : Option (Nat × List Char) :=
  match readNumber 10 3 cs with
  | some (n, rest) => if n ≤ 255 then some (n, rest) else none
  | none => none

/-- `Parser::read_ipv4_addr`: four dot-separated octets. -/
def readIpv4 (cs : List Char) : Option ((Nat × Nat × Nat × Nat) × List Char) := do
  let (a, cs) ← readOctet cs
  let cs ← expectChar '.' cs
  let (b, cs) ← readOctet cs
  let cs ← expectChar '.' cs
  let (c, cs) ← readOctet cs
  let cs ← expectChar '.' cs
  let (d, cs) ← readOctet cs
  pure ((a, b, c, d), cs)

/-- The group-reading loop of `Parser::read_ipv6_addr`: read up to `fuel`
16-bit groups, each preceded by `:` except the first when `first` is
true; an embedded trailing IPv4 address (filling two groups) is accepted
while at least two group slots remain, and stops the loop with the flag
set.  Returns the groups read, the embedded-IPv4 flag, and the rest of
the input (a consumed separator is restored when its group fails). -/
def readGroups : Nat → Bool → List Char → List Nat × Bool × List Char
  | 0, _, cs => ([], false, cs)
  | n + 1, first, cs =>
    match (if first then some cs else expectChar ':' cs) with
    | none => ([], false, cs)
    | some cs1 =>
      match (if 1 ≤ n then readIpv4 cs1 else none) with
      | some ((a, b, c, d), rest) => ([a * 256 + b, c * 256 + d], true, rest)
      | none =>
        match readNumber 16 4 cs1 with
        | some (g, rest) =>
          let (gs, flag, rest2) := readGroups n false rest
          (g :: gs, flag, rest2)
        | none => ([], false, cs)

/-- `Parser::read_ipv6_addr`: a head group run; if it fills all 8 groups
the address is complete, otherwise (when the head did not end in an
embedded IPv4) a `::` abbreviation followed by a tail group run, with the
middle zero-filled. -/
def readIpv6 (cs : List Char) : Option (List Nat × List Char) :=
  let (head, headV4, cs1) := readGroups 8 true cs
  if head.length = 8 then some (head, cs1)
  else if headV4 then none
  else
    match expectChar ':' cs1 with
    | none => none
    | some cs2 =>
      match expectChar ':' cs2 with
      | none => none
      | some cs3 =>
        let (tail, _, cs4) := readGroups (8 - head.length - 1) true cs3
        some (head ++ List.replicate (8 - head.length - tail.length) 0 ++ tail, cs4)

/-- `IpAddr::from_str`: the whole string as an IPv4 address, else the
whole string as an IPv6 address. -/
def parseIpAddr (s : String) : Option IpAddr :=
  match readIpv4 s.data with
  | some ((a, b, c, d), []) => some (.v4 a b c d)
  | _ =>
    match readIpv6 s.data with
    | some (gs, []) => some (.v6 gs)
    | _ => none

/-- A port: a decimal number of at most 5 digits, at most 65535. -/
def readPort (cs : List Char) : Option (Nat × List Char) :=
  match readNumber 10 5 cs with
  | some (n, rest) => if n ≤ 65535 then some (n, rest) else none
  | none => none

/-- A V4 socket address: `ipv4:port`. -/
def readSocketV4 (cs : List Char) : Option (SocketAddr × List Char) := do
  let ((a, b, c, d), cs) ← readIpv4 cs
  let cs ← expectChar ':' cs
  let (p, cs) ← readPort cs
  pure (⟨.v4 a b c d, p⟩, cs)

/-- A V6 socket address: `[ipv6]:port`. -/
def readSocketV6 (cs : List Char) : Option (SocketAddr × List Char) := do
  let cs ← expectChar '[' cs
  let (gs, cs) ← readIpv6 cs
  let cs ← expectChar ']' cs
  let cs ← expectChar ':' cs
  let (p, cs) ← readPort cs
  pure (⟨.v6 gs, p⟩, cs)

/-- `SocketAddr::from_str`: the whole string as a V4 socket address, else
the whole string as a V6 socket address. -/
def parseSocketAddr (s : String) : Option SocketAddr :=
  match readSocketV4 s.data with
  | some (a, []) => some a
  | _ =>
    match readSocketV6 s.data with
    | some (a, []) => some a
    | _ => none

/-! ## The validated gossip listen address -/

/-- `GossipListenAddr`: a newtype over `SocketAddr`. -/
structure GossipListenAddr where
  addr : SocketAddr
deriving DecidableEq

/-- `GossipListenAddr::default`: `0.0.0.0:9638`. -/
def GossipListenAddr.default : GossipListenAddr :=
  ⟨⟨.v4 0 0 0 0, 9638⟩⟩

/-- `GossipListenAddr::from_str`: parse as a full socket address; failing
that, parse as a bare IP and combine it with the default (port 9638, via
`set_ip` on the default address); failing that, `Error::IPFailed`. -/
def GossipListenAddr.fromStr (s : String) : Except SupError GossipListenAddr :=
  match parseSocketAddr s with
  | some addr => .ok ⟨addr⟩
  | none =>
    match parseIpAddr s with
    | some ip => .ok ⟨GossipListenAddr.default.addr.set_ip ip⟩
    | none => .error .IPFailed

/-! ## Commands -/

/-- The CLI `Command` enum of the supervisor. -/
inductive Command where
  | Start
  | ShellBash
  | ShellSh
deriving DecidableEq

/-- `Command::from_str`: a case-sensitive literal match on `bash`, `sh`
and `start`; anything else is `Error::CommandNotImplemented`. -/
def Command.fromStr (s : String) : Except SupError Command :=
  if s = "bash" then .ok .ShellBash
  else if s = "sh" then .ok .ShellSh
  else if s = "start" then .ok .Start
  else .error .CommandNotImplemented

/-- Modelled from the spec: the canonical re-serialization of a `Command`
back to its CLI literal (the source file only defines the parse
direction; the spec's round-trip property names the same three
literals). -/
def Command.toStr : Command → String
  | .Start => "start"
  | .ShellBash => "bash"
  | .ShellSh => "sh"

/-- `Command::default`: `Start`. -/
def Command.default : Command := Command.Start

/-! ## External collaborator types

These types live in other crates of the repository (`manager::service`,
`hcore::package`, `http_gateway`) and are opaque to this module; they are
modelled from the spec. -/

/-- Modelled from the spec: the `Topology` enum of `manager::service`
(`{Standalone, Leader, ...}`; default `Standalone`). -/
inductive Topology where
  | Standalone
  | Leader
deriving DecidableEq

/-- Modelled from the spec: `Topology`'s default is `Standalone`. -/
def Topology.default : Topology := Topology.Standalone

/-- Modelled from the spec: the `UpdateStrategy` enum of
`manager::service` (an enumeration of update policies with a defined
default). -/
inductive UpdateStrategy where
  | NoUpdate
  | AtOnce
  | Rolling
deriving DecidableEq

/-- Modelled from the spec: `UpdateStrategy`'s defined default. -/
def UpdateStrategy.default : UpdateStrategy := UpdateStrategy.NoUpdate

/-- Modelled from the spec: `hcore::package::PackageIdent`, an opaque
package-identity value, structurally validated elsewhere. -/
structure PackageIdent where
  ident : String
deriving DecidableEq

/-- Modelled from the spec: the default (empty) package identity. -/
def PackageIdent.default : PackageIdent := ⟨""⟩

/-- Modelled from the spec: `http_gateway::ListenAddr` dereferences to a
socket address defaulting to `0.0.0.0:<http-default-port>`; the concrete
default port is outside this module (9631 is used as the stand-in; no
property here depends on it). -/
def httpListenDefault : SocketAddr := ⟨.v4 0 0 0 0, 9631⟩

/-! ## Peer-list normalization -/

/-- `p.find(':').is_none()` in the source: does the peer string contain a
colon anywhere? -/
def hasPort (p : String) : Bool :=
  p.data.any (fun c => c = ':')

/-- The per-entry normalization of `Config::set_gossip_peer`: an entry
with no colon gets `":9638"` appended; any entry with a colon is left
unchanged. -/
def normalizePeer (p : String) : String :=
  if hasPort p then p else p ++ ":9638"

/-! ## The configuration aggregate -/

/-- `Config`: the configuration aggregate, with the field set and field
types of the source struct. -/
structure Config where
  http_listen_addr : SocketAddr
  gossip_listen : GossipListenAddr
  command : Command
  package : PackageIdent
  local_artifact : Option String
  url : String
  topology : Topology
  group : String
  bind : List String
  gossip_peer : List String
  gossip_permanent : Bool
  update_strategy : UpdateStrategy
  organization : Option String
  ring : Option String
  config_from : Option String
deriving DecidableEq

/-- `Config::default` (via `#[derive(Default)]`): every field at its
type's default. -/
def Config.default : Config :=
  { http_listen_addr := httpListenDefault
    gossip_listen := GossipListenAddr.default
    command := Command.default
    package := PackageIdent.default
    local_artifact := none
    url := ""
    topology := Topology.default
    group := ""
    bind := []
    gossip_peer := []
    gossip_permanent := false
    update_strategy := UpdateStrategy.default
    organization := none
    ring := none
    config_from := none }

/-- `Config::new`: a default `Config`. -/
def Config.new : Config := Config.default

/-!
The builder setters.  In the source each setter assigns its field and
returns `&mut self`; sequential calls and a fluent chain both perform the
same assignments in order, so a setter is embedded as a function from the
aggregate (and the new value) to the updated aggregate, and chaining is
function application.
-/

/-- `Config::set_config_from`. -/
def Config.set_config_from (c : Config) (config_from : Option String) : Config :=
  { c with config_from := config_from }

/-- `Config::set_update_strategy`. -/
def Config.set_update_strategy (c : Config) (strat : UpdateStrategy) : Config :=
  { c with update_strategy := strat }

/-- `Config::set_command`. -/
def Config.set_command (c : Config) (command : Command) : Config :=
  { c with command := command }

/-- `Config::set_group`. -/
def Config.set_group (c : Config) (group : String) : Config :=
  { c with group := group }

/-- `Config::set_bind`. -/
def Config.set_bind (c : Config) (bind : List String) : Config :=
  { c with bind := bind }

/-- `Config::set_url`. -/
def Config.set_url (c : Config) (url : String) : Config :=
  { c with url := url }

/-- `Config::set_topology`. -/
def Config.set_topology (c : Config) (topology : Topology) : Config :=
  { c with topology := topology }

/-- `Config::set_gossip_listen`. -/
def Config.set_gossip_listen (c : Config) (gossip_listen : GossipListenAddr) : Config :=
  { c with gossip_listen := gossip_listen }

/-- `Config::set_http_listen_ip`: mutates the IP component of the HTTP
listen address in place. -/
def Config.set_http_listen_ip (c : Config) (ip : IpAddr) : Config :=
  { c with http_listen_addr := c.http_listen_addr.set_ip ip }

/-- `Config::set_http_listen_port`: mutates the port component of the
HTTP listen address in place. -/
def Config.set_http_listen_port (c : Config) (port : Nat) : Config :=
  { c with http_listen_addr := c.http_listen_addr.set_port port }

/-- `Config::set_gossip_permanent`. -/
def Config.set_gossip_permanent (c : Config) (p : Bool) : Config :=
  { c with gossip_permanent := p }

/-- `Config::set_gossip_peer`: appends `":9638"` to every entry with no
colon, in place, then stores the list. -/
def Config.set_gossip_peer (c : Config) (gp : List String) : Config :=
  { c with gossip_peer := gp.map normalizePeer }

/-- `Config::set_package`. -/
def Config.set_package (c : Config) (ident : PackageIdent) : Config :=
  { c with package := ident }

/-- `Config::set_local_artifact`: stores `Some(artifact)`. -/
def Config.set_local_artifact (c : Config) (artifact : String) : Config :=
  { c with local_artifact := some artifact }

/-- `Config::set_organization`: stores `Some(org)`. -/
def Config.set_organization (c : Config) (org : String) : Config :=
  { c with organization := some org }

/-- `Config::set_ring`: stores `Some(ring)`. -/
def Config.set_ring (c : Config) (ring : String) : Config :=
  { c with ring := some ring }

/-! ## The global cache

`static mut CONFIG: *const Config = 0 as *const Config;` starts as a null
pointer; `gcache` boxes its argument and stores the pointer inside a
`Once::call_once`, so only the first completed call stores; `gconfig`
dereferences the raw pointer unconditionally.  The cache is embedded as a
state of type `Option Config`: `none` is the null pointer, `some c` the
pointer to the boxed first-published value, and `gconfig` returns the
state as-is — a `none` result stands for the null-pointer dereference. -/

/-- The state of the `CONFIG` static: `none` models the initial null
pointer, `some c` a stored configuration. -/
def CacheState : Type := Option Config

/-- The initial state of `CONFIG`: the null pointer. -/
def initialCache : CacheState := (none : Option Config)

/-- `gcache(config)`: inside `Once::call_once`, store the configuration
only if nothing has been stored yet; otherwise do nothing (no error, no
replacement). -/
def gcache (s : CacheState) (config : Config) : CacheState :=
  match s with
  | none => some config
  | some c => some c

/-- A sequence of `gcache` calls applied in order (any interleaving of
concurrent callers is serialized by the `Once`). -/
def publishAll (s : CacheState) (cs : List Config) : CacheState :=
  cs.foldl gcache s

/-- `gconfig()`: dereference the `CONFIG` pointer.  The returned `Option`
is the raw pointer itself: `none` models the null-pointer dereference
that occurs when no publish has happened. -/
def gconfig (s : CacheState) : Option Config := s

end Sup

namespace Sup

/-! ## Theorems -/

/-- Publishing onto an already-initialized cache leaves it unchanged,
whatever the sequence of later calls. -/
theorem publishAll_some (c : Config) (cs : List Config) :
    publishAll (some c) cs = some c := by
  induction cs with
  | nil => rfl
  | cons x xs ih => exact ih

/-- C1: the global cache is write-once: the first completed `gcache` call
stores its aggregate, every subsequent `gcache` call (after any number of
intervening calls) is a silent no-op that never replaces the stored
value, and `gconfig` after the first publish returns that first-published
aggregate. -/
theorem gcache_write_once (c extra : Config) (later : List Config) :
    publishAll initialCache (c :: later) = some c ∧
    gcache (publishAll initialCache (c :: later)) extra
      = publishAll initialCache (c :: later) ∧
    gconfig (publishAll initialCache (c :: later)) = some c := by
  have h : publishAll initialCache (c :: later) = some c := publishAll_some c later
  exact ⟨h, by rw [h]; rfl, h⟩

/-- C9: before any publish the backing storage of `gconfig` is the null
pointer (modelled `none`), so a call then is a precondition violation,
not a reported error; once a `gcache` call has completed, `gconfig`
returns a valid reference to the first-published aggregate. -/
theorem gconfig_null_before_publish (c : Config) (later : List Config) :
    gconfig initialCache = none ∧
    gconfig (publishAll initialCache (c :: later)) = some c :=
  ⟨rfl, publishAll_some c later⟩

/-- C2: `GossipListenAddr::from_str` succeeds on a full socket-address
string with exactly that address, succeeds on a bare host/IP string with
that host and the default port 9638, and fails with the address-parse
error on anything else; in particular on the spec's examples. -/
theorem gossip_listen_from_str_spec :
    (∀ (s : String) (a : SocketAddr),
        parseSocketAddr s = some a → GossipListenAddr.fromStr s = .ok ⟨a⟩) ∧
    (∀ (s : String) (ip : IpAddr),
        parseSocketAddr s = none → parseIpAddr s = some ip →
        GossipListenAddr.fromStr s = .ok ⟨⟨ip, 9638⟩⟩) ∧
    (∀ s : String, parseSocketAddr s = none → parseIpAddr s = none →
        GossipListenAddr.fromStr s = .error .IPFailed) ∧
    GossipListenAddr.fromStr "192.168.1.5" = .ok ⟨⟨.v4 192 168 1 5, 9638⟩⟩ ∧
    GossipListenAddr.fromStr "192.168.1.5:4444" = .ok ⟨⟨.v4 192 168 1 5, 4444⟩⟩ ∧
    GossipListenAddr.fromStr "not-an-ip:::" = .error .IPFailed ∧
    GossipListenAddr.fromStr "" = .error .IPFailed ∧
    GossipListenAddr.fromStr "192.168.1.5:70000" = .error .IPFailed := by
  refine ⟨?_, ?_, ?_, by decide, by decide, by decide, by decide, by decide⟩
  · intro s a h
    unfold GossipListenAddr.fromStr
    rw [h]
  · intro s ip h1 h2
    unfold GossipListenAddr.fromStr
    rw [h1, h2]
    rfl
  · intro s h1 h2
    unfold GossipListenAddr.fromStr
    rw [h1, h2]

/-- Witness for C2 at concrete inputs of each of the three shapes. -/
theorem gossip_listen_from_str_spec_witness :
    GossipListenAddr.fromStr "10.0.0.1:80" = .ok ⟨⟨.v4 10 0 0 1, 80⟩⟩ ∧
    GossipListenAddr.fromStr "127.0.0.1" = .ok ⟨⟨.v4 127 0 0 1, 9638⟩⟩ ∧
    GossipListenAddr.fromStr "nope" = .error .IPFailed :=
  ⟨gossip_listen_from_str_spec.1 "10.0.0.1:80" ⟨.v4 10 0 0 1, 80⟩ (by decide),
   gossip_listen_from_str_spec.2.1 "127.0.0.1" (.v4 127 0 0 1) (by decide) (by decide),
   gossip_listen_from_str_spec.2.2.1 "nope" (by decide) (by decide)⟩

/-- C3: `Config::set_gossip_peer` normalizes by mapping the (total)
per-entry normalizer over the list: length and positions are preserved,
an entry with no colon gets `":9638"` appended, and an entry with a
colon is stored unchanged. -/
theorem set_gossip_peer_normalizes (c : Config) (gp : List String) :
    (c.set_gossip_peer gp).gossip_peer = gp.map normalizePeer ∧
    (c.set_gossip_peer gp).gossip_peer.length = gp.length ∧
    (∀ i : Nat, (c.set_gossip_peer gp).gossip_peer[i]? = (gp[i]?).map normalizePeer) ∧
    (∀ p : String, hasPort p = false → normalizePeer p = p ++ ":9638") ∧
    (∀ p : String, hasPort p = true → normalizePeer p = p) := by
  refine ⟨rfl, by simp [Config.set_gossip_peer], ?_, ?_, ?_⟩
  · intro i
    simp [Config.set_gossip_peer]
  · intro p h
    simp [normalizePeer, h]
  · intro p h
    simp [normalizePeer, h]

/-- Witness for C3 on the spec's example peer list. -/
theorem set_gossip_peer_normalizes_witness :
    (Config.new.set_gossip_peer ["10.0.0.1", "10.0.0.2:8000"]).gossip_peer
      = ["10.0.0.1:9638", "10.0.0.2:8000"] ∧
    normalizePeer "10.0.0.1" = "10.0.0.1:9638" ∧
    normalizePeer "10.0.0.2:8000" = "10.0.0.2:8000" := by
  have h := set_gossip_peer_normalizes Config.new ["10.0.0.1", "10.0.0.2:8000"]
  exact ⟨h.1.trans (by decide),
         (h.2.2.2.1 "10.0.0.1" (by decide)).trans (by decide),
         h.2.2.2.2 "10.0.0.2:8000" (by decide)⟩

/-- C4: `Command::from_str` succeeds exactly on the case-sensitive
literals `start`, `bash` and `sh`, every success re-serializes to the
literal it was parsed from, and every other string fails with
`CommandNotImplemented`. -/
theorem command_from_str_spec :
    Command.fromStr "start" = .ok .Start ∧
    Command.fromStr "bash" = .ok .ShellBash ∧
    Command.fromStr "sh" = .ok .ShellSh ∧
    (∀ (s : String) (k : Command), Command.fromStr s = .ok k → Command.toStr k = s) ∧
    (∀ s : String, s ≠ "start" → s ≠ "bash" → s ≠ "sh" →
        Command.fromStr s = .error .CommandNotImplemented) := by
  refine ⟨by decide, by decide, by decide, ?_, ?_⟩
  · intro s k h
    unfold Command.fromStr at h
    split_ifs at h with h1 h2 h3
    · injection h with hk
      subst hk
      subst h1
      rfl
    · injection h with hk
      subst hk
      subst h2
      rfl
    · injection h with hk
      subst hk
      subst h3
      rfl
  · intro s h1 h2 h3
    unfold Command.fromStr
    rw [if_neg h2, if_neg h3, if_neg h1]

/-- Witness for C4: the round trip at `"bash"` and the failure at a
non-literal. -/
theorem command_from_str_spec_witness :
    Command.toStr Command.ShellBash = "bash" ∧
    Command.fromStr "zzz" = .error .CommandNotImplemented :=
  ⟨command_from_str_spec.2.2.2.1 "bash" Command.ShellBash (by decide),
   command_from_str_spec.2.2.2.2 "zzz" (by decide) (by decide) (by decide)⟩

/-- C5: a freshly constructed aggregate has `topology == Standalone`,
`command == Start`, `url == ""` and `gossipListenAddress == 0.0.0.0:9638`. -/
theorem config_defaults :
    Config.new.topology = Topology.Standalone ∧
    Config.new.command = Command.Start ∧
    Config.new.url = "" ∧
    Config.new.gossip_listen = GossipListenAddr.default ∧
    GossipListenAddr.default = ⟨⟨.v4 0 0 0 0, 9638⟩⟩ :=
  ⟨rfl, rfl, rfl, rfl, rfl⟩

/-- C6: every builder setter is last-write-wins (setting the same field
twice leaves only the last value), and a fluent chain of setters equals
the same setters applied as separate sequential statements. -/
theorem setters_last_write_wins (c : Config)
    (cf1 cf2 : Option String) (us1 us2 : UpdateStrategy) (k1 k2 : Command)
    (g1 g2 : String) (bs1 bs2 : List String) (u1 u2 : String)
    (t1 t2 : Topology) (gl1 gl2 : GossipListenAddr) (ip1 ip2 : IpAddr)
    (pt1 pt2 : Nat) (b1 b2 : Bool) (gp1 gp2 : List String)
    (pk1 pk2 : PackageIdent) (la1 la2 org1 org2 rg1 rg2 : String) :
    ((c.set_config_from cf1).set_config_from cf2) = c.set_config_from cf2 ∧
    ((c.set_update_strategy us1).set_update_strategy us2) = c.set_update_strategy us2 ∧
    ((c.set_command k1).set_command k2) = c.set_command k2 ∧
    ((c.set_group g1).set_group g2) = c.set_group g2 ∧
    ((c.set_bind bs1).set_bind bs2) = c.set_bind bs2 ∧
    ((c.set_url u1).set_url u2) = c.set_url u2 ∧
    ((c.set_topology t1).set_topology t2) = c.set_topology t2 ∧
    ((c.set_gossip_listen gl1).set_gossip_listen gl2) = c.set_gossip_listen gl2 ∧
    ((c.set_http_listen_ip ip1).set_http_listen_ip ip2) = c.set_http_listen_ip ip2 ∧
    ((c.set_http_listen_port pt1).set_http_listen_port pt2) = c.set_http_listen_port pt2 ∧
    ((c.set_gossip_permanent b1).set_gossip_permanent b2) = c.set_gossip_permanent b2 ∧
    ((c.set_gossip_peer gp1).set_gossip_peer gp2) = c.set_gossip_peer gp2 ∧
    ((c.set_package pk1).set_package pk2) = c.set_package pk2 ∧
    ((c.set_local_artifact la1).set_local_artifact la2) = c.set_local_artifact la2 ∧
    ((c.set_organization org1).set_organization org2) = c.set_organization org2 ∧
    ((c.set_ring rg1).set_ring rg2) = c.set_ring rg2 ∧
    ((c.set_url u1).set_group g1).set_command k1
      = Config.set_command (Config.set_group (Config.set_url c u1) g1) k1 :=
  ⟨rfl, rfl, rfl, rfl, rfl, rfl, rfl, rfl, rfl, rfl, rfl, rfl, rfl, rfl, rfl, rfl, rfl⟩

/-- C7: the fields of the aggregate are independent: every setter is a
total function that updates exactly its own field (the record-update
right-hand sides leave every other field of `c` untouched), only
`set_gossip_peer` transforms its input (through the peer normalizer)
before storing, and every other setter stores its argument verbatim (the
optional-field setters store it under `some`, the two component setters
store it as the corresponding component of the HTTP listen address). -/
theorem setters_frame (c : Config) (cf : Option String) (us : UpdateStrategy)
    (k : Command) (g : String) (bs : List String) (u : String) (t : Topology)
    (gl : GossipListenAddr) (ip : IpAddr) (pt : Nat) (b : Bool)
    (gp : List String) (pk : PackageIdent) (la org rg : String) :
    c.set_config_from cf = { c with config_from := cf } ∧
    c.set_update_strategy us = { c with update_strategy := us } ∧
    c.set_command k = { c with command := k } ∧
    c.set_group g = { c with group := g } ∧
    c.set_bind bs = { c with bind := bs } ∧
    c.set_url u = { c with url := u } ∧
    c.set_topology t = { c with topology := t } ∧
    c.set_gossip_listen gl = { c with gossip_listen := gl } ∧
    c.set_http_listen_ip ip
      = { c with http_listen_addr := ⟨ip, c.http_listen_addr.port⟩ } ∧
    c.set_http_listen_port pt
      = { c with http_listen_addr := ⟨c.http_listen_addr.ip, pt⟩ } ∧
    c.set_gossip_permanent b = { c with gossip_permanent := b } ∧
    c.set_gossip_peer gp = { c with gossip_peer := gp.map normalizePeer } ∧
    c.set_package pk = { c with package := pk } ∧
    c.set_local_artifact la = { c with local_artifact := some la } ∧
    c.set_organization org = { c with organization := some org } ∧
    c.set_ring rg = { c with ring := some rg } :=
  ⟨rfl, rfl, rfl, rfl, rfl, rfl, rfl, rfl, rfl, rfl, rfl, rfl, rfl, rfl, rfl, rfl⟩

/-- C8: peer normalization decides "has a port" purely by the presence of
a colon: any entry containing a colon — including the bare IPv6 literal
`::1` — is stored completely unchanged by `set_gossip_peer`, and only
colon-free entries receive the `":9638"` suffix. -/
theorem peer_port_detection_by_colon (c : Config) :
    (∀ p : String, hasPort p = true → normalizePeer p = p) ∧
    (∀ p : String, hasPort p = false → normalizePeer p = p ++ ":9638") ∧
    hasPort "::1" = true ∧
    (c.set_gossip_peer ["::1"]).gossip_peer = ["::1"] := by
  refine ⟨?_, ?_, by decide, ?_⟩
  · intro p h
    simp [normalizePeer, h]
  · intro p h
    simp [normalizePeer, h]
  · show List.map normalizePeer ["::1"] = ["::1"]
    decide

/-- Witness for C8 at a colon-bearing and a colon-free entry. -/
theorem peer_port_detection_by_colon_witness :
    normalizePeer "::1" = "::1" ∧ normalizePeer "node1" = "node1:9638" := by
  have h := peer_port_detection_by_colon Config.new
  exact ⟨h.1 "::1" (by decide), (h.2.1 "node1" (by decide)).trans (by decide)⟩

/-- C10: `GossipListenAddr::from_str` accepts the bare IPv6 literal
`::1`: it is not a full socket address, but parses as an IP, so the
result is that host with the default port 9638 — while the tolerant peer
normalizer leaves the same string untouched rather than qualifying it. -/
theorem gossip_from_str_bare_ipv6 :
    parseSocketAddr "::1" = none ∧
    parseIpAddr "::1" = some (.v6 [0, 0, 0, 0, 0, 0, 0, 1]) ∧
    GossipListenAddr.fromStr "::1" = .ok ⟨⟨.v6 [0, 0, 0, 0, 0, 0, 0, 1], 9638⟩⟩ ∧
    normalizePeer "::1" = "::1" := by
  decide

end Sup
